import Mathlib

/-!
Formal model of the gojws library (file `jws.go`, package `gojws`), a verifier
for JSON Web Signatures in compact serialization.  Go values are embedded
shallowly: Go strings become `List Char`, byte slices become `List Nat`
(one natural per byte), the dynamic `crypto.PublicKey` interface value becomes
the closed sum `GoKey`, and the cryptographic primitives from the Go standard
library (HMAC-SHA256, SHA-256, SHA-512, RSA PKCS#1 v1.5 verification, ECDSA
verification) are opaque parameters collected in `CryptoPrims` — the verifier
never looks inside them, it only feeds them inputs and branches on their
output, so every theorem below quantifies over them.
-/

/-- Go byte slices (`[]byte`) are modelled as lists of naturals, one per byte. -/
abbrev Bytes := List Nat

/-- Go `type Algorithm string`.  Kept as a bare string because unknown values
must be preserved verbatim for error reporting. -/
abbrev Algorithm := String

def ALG_NONE : Algorithm := "none"

def ALG_HS256 : Algorithm := "HS256"

def ALG_RS256 : Algorithm := "RS256"

def ALG_ES256 : Algorithm := "ES256"

def ALG_ES512 : Algorithm := "ES512"

/-- Model of Go `rsa.PublicKey` (fields `N`, `E`); its contents are opaque to
the verifier, which only hands the key to the RSA primitive. -/
structure RsaPublicKey where
  N : Nat
  E : Nat
deriving DecidableEq

/-- Model of Go `rsa.PrivateKey`: it embeds a `PublicKey`, which is all
`VerifyAndDecode` ever reads from it (`privKey.PublicKey`). -/
structure RsaPrivateKey where
  PublicKey : RsaPublicKey
  D : Nat
deriving DecidableEq

/-- Model of Go `ecdsa.PublicKey` (curve plus affine coordinates); opaque to
the verifier, which only hands the key to the ECDSA primitive. -/
structure EcdsaPublicKey where
  Curve : String
  X : Int
  Y : Int
deriving DecidableEq

/-- Model of Go `ecdsa.PrivateKey`: embeds a `PublicKey`, which is all
`VerifyAndDecode` ever reads from it. -/
structure EcdsaPrivateKey where
  PublicKey : EcdsaPublicKey
  D : Int
deriving DecidableEq

/-- Model of a Go `crypto.PublicKey` interface value: a dynamic type tag plus
payload.  `noneKeyVal v` is dynamic type `gojws.NoneKeyType` carrying integer
`v`; the reserved sentinel `NoneKey` is `noneKeyVal 0`.  `byteSlice` is
`[]byte`, the four key constructors are the pointer types the two type
assertions in `jws.go` test for, and `otherKey s` stands for a value of any
other dynamic type whose `%T` formatting is `s`.  Go interface equality
(`key != NoneKey`) is equality of tag and payload, which is exactly the
derived `DecidableEq`. -/
inductive GoKey where
  | noneKeyVal (v : Int)
  | byteSlice (b : Bytes)
  | rsaPub (k : RsaPublicKey)
  | rsaPriv (k : RsaPrivateKey)
  | ecdsaPub (k : EcdsaPublicKey)
  | ecdsaPriv (k : EcdsaPrivateKey)
  | otherKey (typeName : String)
deriving DecidableEq

/-- Go `const NoneKey = NoneKeyType(0)`: the sentinel authorizing the `none`
algorithm. -/
def NoneKey : GoKey := GoKey.noneKeyVal 0

/-- Result of Go `fmt.Sprintf("%T", key)`, used in the key-type error
messages. -/
def goTypeName : GoKey → String
  | GoKey.noneKeyVal _ => "gojws.NoneKeyType"
  | GoKey.byteSlice _ => "[]uint8"
  | GoKey.rsaPub _ => "*rsa.PublicKey"
  | GoKey.rsaPriv _ => "*rsa.PrivateKey"
  | GoKey.ecdsaPub _ => "*ecdsa.PublicKey"
  | GoKey.ecdsaPriv _ => "*ecdsa.PrivateKey"
  | GoKey.otherKey t => t

/-- Model of Go `strings.Split(s, ".")`: split on every occurrence of the
separator; `n` separators yield `n + 1` segments, and the empty string yields
one empty segment. -/
def splitOnDot : List Char → List (List Char)
  | [] => [[]]
  | c :: rest =>
    if c = '.' then [] :: splitOnDot rest
    else
      match splitOnDot rest with
      | [] => [[c]]
      | seg :: segs => (c :: seg) :: segs

/-- Value of one character of the URL-safe base64 alphabet, `none` for any
character outside it. -/
def b64UrlVal (c : Char) : Option Nat :=
  if 'A' ≤ c ∧ c ≤ 'Z' then some (c.toNat - 65)
  else if 'a' ≤ c ∧ c ≤ 'z' then some (c.toNat - 97 + 26)
  else if '0' ≤ c ∧ c ≤ '9' then some (c.toNat - 48 + 52)
  else if c = '-' then some 62
  else if c = '_' then some 63
  else none

/-- Strip at most two trailing `=` padding characters; any further `=` in the
body (or a third trailing one) is malformed padding. -/
def stripPad (cs : List Char) : Option (List Char) :=
  match cs.reverse with
  | '=' :: '=' :: t => if t.contains '=' then none else some t.reverse
  | '=' :: t => if t.contains '=' then none else some t.reverse
  | t => if t.contains '=' then none else some t.reverse

/-- Map every character to its 6-bit value, failing on the first character
outside the URL-safe alphabet. -/
def b64Vals : List Char → Option (List Nat)
  | [] => some []
  | c :: cs =>
    match b64UrlVal c, b64Vals cs with
    | some v, some vs => some (v :: vs)
    | _, _ => none

/-- Reassemble bytes from 6-bit values, four values per three bytes, with a
final group of two or three values giving one or two bytes; a final group of
a single value cannot encode a byte and is rejected. -/
def b64Group : List Nat → Option Bytes
  | [] => some []
  | [_] => none
  | [a, b] => some [a * 4 + b / 16]
  | [a, b, c] => some [a * 4 + b / 16, b % 16 * 16 + c / 4]
  | a :: b :: c :: d :: rest =>
    match b64Group rest with
    | some bs => some ((a * 4 + b / 16) :: (b % 16 * 16 + c / 4) :: (c % 4 * 64 + d) :: bs)
    | none => none

/-- Modelled from the spec: the decoding primitive `safeDecode` used by
`VerifyAndDecode` is part of this repository but its source file is not under
`src/`; per the spec it is tolerant URL-safe base64 decoding, accepting both
padded and unpadded input and rejecting characters outside the URL-safe
alphabet as well as malformed padding.  The empty string decodes to the empty
byte slice. -/
def safeDecode (s : List Char) : Option Bytes :=
  match stripPad s with
  | none => none
  | some cs =>
    match b64Vals cs with
    | none => none
    | some vs => b64Group vs

/-- JSON whitespace bytes (space, tab, line feed, carriage return). -/
def isJsonWs (b : Nat) : Bool := b = 32 ∨ b = 9 ∨ b = 10 ∨ b = 13

/-- Drop leading JSON whitespace. -/
def skipWs (bs : Bytes) : Bytes := bs.dropWhile isJsonWs

/-- Body of a JSON string after its opening quote: printable ASCII up to the
closing quote.  Escape sequences and non-ASCII bytes are outside the header
shapes this development reasons about and are rejected. -/
def parseStringBody : Bytes → Option (List Char × Bytes)
  | [] => none
  | b :: rest =>
    if b = 34 then some ([], rest)
    else if b = 92 ∨ b < 32 ∨ 127 ≤ b then none
    else
      match parseStringBody rest with
      | some (cs, r) => some (Char.ofNat b :: cs, r)
      | none => none

/-- Parse one JSON string literal (opening quote, body, closing quote). -/
def parseJsonStr (bs : Bytes) : Option (String × Bytes) :=
  match bs with
  | 34 :: rest =>
    match parseStringBody rest with
    | some (cs, r) => some (String.mk cs, r)
    | none => none
  | _ => none

/-- Parse the members of a JSON object after its opening brace: a sequence of
`"key" : "value"` pairs separated by commas and closed by a closing brace.
The fuel argument only bounds recursion; each member consumes input, so any
fuel beyond the input length is enough. -/
def parseMembersAux : Nat → Bytes → Option (List (String × String) × Bytes)
  | 0, _ => none
  | fuel + 1, input =>
    match parseJsonStr (skipWs input) with
    | none => none
    | some (k, r1) =>
      match skipWs r1 with
      | 58 :: r2 =>
        match parseJsonStr (skipWs r2) with
        | none => none
        | some (v, r3) =>
          match skipWs r3 with
          | 125 :: r4 => some ([(k, v)], r4)
          | 44 :: r4 =>
            match parseMembersAux fuel r4 with
            | some (kvs, r5) => some ((k, v) :: kvs, r5)
            | none => none
          | _ => none
      | _ => none

/-- Model of the JSON layer of Go `json.Unmarshal` at the interface the spec
gives it: the header bytes must form one JSON object, returned as its ordered
list of key/value pairs.  The model covers objects whose member values are
strings, which is the shape of every JWS header field; anything else fails,
as invalid structure does in Go. -/
def parseHeaderJson (data : Bytes) : Option (List (String × String)) :=
  match skipWs data with
  | 123 :: rest =>
    match skipWs rest with
    | 125 :: tail => if (skipWs tail).isEmpty then some [] else none
    | r =>
      match parseMembersAux (r.length + 1) r with
      | some (kvs, tail) => if (skipWs tail).isEmpty then some kvs else none
      | none => none
  | _ => none

/-- Go `type Header struct` from `jws.go`, in source field order.  The struct
tags in the source are: `Alg` tagged `alg`, `Typ` tagged `typ`, `Cty` tagged
`typ` (a duplicate of Typ's tag), `Jku` tagged `jku`, `Jwk` tagged `jkw`
(transposed letters), `X5u`, `X5t`, `X5c`, `Kid` tagged by their lowercase
names. -/
structure Header where
  Alg : Algorithm
  Typ : String
  Cty : String
  Jku : String
  Jwk : String
  X5u : String
  X5t : String
  X5c : String
  Kid : String
deriving DecidableEq

/-- Go zero value of `Header`: what `var header Header` holds before
`json.Unmarshal` fills it. -/
def emptyHeader : Header := ⟨"", "", "", "", "", "", "", "", ""⟩

/-- Field resolution of Go `encoding/json` for this exact struct.  A tagged
field is addressed by its tag, not its Go name; when two fields at the same
level carry the same effective name, `encoding/json` drops both and matching
that key sets nothing.  For `jws.go`'s struct that means: `alg` sets `Alg`,
`jku` sets `Jku`, `jkw` (the transposed tag) sets `Jwk`, `x5u`, `x5t`, `x5c`,
`kid` set their fields; the key `typ` matches nothing because both `Typ` and
`Cty` are tagged `typ`, and the keys `cty` and `jwk` match no field at all.
Unknown keys are ignored.  (Go additionally accepts a case-insensitive match
on these effective names; the development only reasons about lowercase wire
names, where that fallback cannot fire.) -/
def setHeaderField (h : Header) (k v : String) : Header :=
  if k = "alg" then { h with Alg := v }
  else if k = "jku" then { h with Jku := v }
  else if k = "jkw" then { h with Jwk := v }
  else if k = "x5u" then { h with X5u := v }
  else if k = "x5t" then { h with X5t := v }
  else if k = "x5c" then { h with X5c := v }
  else if k = "kid" then { h with Kid := v }
  else h

/-- Model of `json.Unmarshal(data, &header)` for the `Header` struct: parse
the object, then fill the zero-valued header member by member (a repeated key
therefore keeps its last value, as in Go). -/
def goUnmarshalHeader (data : Bytes) : Option Header :=
  match parseHeaderJson data with
  | none => none
  | some kvs => some (kvs.foldl (fun h kv => setHeaderField h kv.1 kv.2) emptyHeader)

/-- Go `hash.Hash` in streaming use: `io.WriteString` appends to the buffer
and the final `Sum` applies the digest function to everything written. -/
structure Hasher where
  buf : List Char
deriving DecidableEq

/-- Go `io.WriteString(h, s)`. -/
def Hasher.writeString (h : Hasher) (s : List Char) : Hasher := ⟨h.buf ++ s⟩

/-- Opaque cryptographic primitives from the Go standard library.  The
verifier treats them as black boxes: `hmacSha256 key msg` is the MAC of the
written stream, `sha256`/`sha512` digest the written stream, and the two
verification predicates report whether a signature checks out against a key
and digest.  `ecdsaVerify` takes the R and S components as the non-negative
integers `big.Int.SetBytes` produces. -/
structure CryptoPrims where
  hmacSha256 : Bytes → List Char → Bytes
  sha256 : List Char → Bytes
  sha512 : List Char → Bytes
  rsaVerifyPKCS1v15 : RsaPublicKey → Bytes → Bytes → Bool
  ecdsaVerify : EcdsaPublicKey → Bytes → Nat → Nat → Bool

/-- Go `hmac.Equal`: constant-time byte-slice equality; extensionally plain
equality. -/
def hmacEqual (a b : Bytes) : Bool := a == b

/-- Go `big.Int.SetBytes`: interpret a byte slice as a big-endian unsigned
integer. -/
def bigIntSetBytes (bs : Bytes) : Nat := bs.foldl (fun acc b => acc * 256 + b) 0

/-- Extraction performed by the RS256 branch: accept `*rsa.PublicKey`
directly, or take the public half of a `*rsa.PrivateKey`; every other dynamic
type fails the two type assertions. -/
def rsaPubOf : GoKey → Option RsaPublicKey
  | GoKey.rsaPub k => some k
  | GoKey.rsaPriv k => some k.PublicKey
  | _ => none

/-- Extraction performed by the ES256/ES512 branch: accept
`*ecdsa.PublicKey` directly, or take the public half of a
`*ecdsa.PrivateKey`. -/
def ecdsaPubOf : GoKey → Option EcdsaPublicKey
  | GoKey.ecdsaPub k => some k
  | GoKey.ecdsaPriv k => some k.PublicKey
  | _ => none

/-- Every distinct error return of `VerifyAndDecode`, one constructor per
`return nil, ...` site, carrying the data the corresponding `fmt.Errorf`
interpolates. -/
inductive VerifyError where
  | malformedJWS
  | malformedHeader
  | failedDecodeHeader
  | failedAcquireKey (msg : String)
  | malformedSignature
  | refusePlaintext
  | expectedSymmetricKey (gotType : String)
  | expectedRsaKey (gotType : String)
  | expectedEcdsaKey (gotType : String)
  | signatureVerificationFailed
  | algLogicError (alg : Algorithm)
  | unknownAlgorithm (alg : Algorithm)
  | malformedPayload
deriving DecidableEq

/-- Message text of each error, following the format strings in `jws.go`
(wrapped sub-error text elided). -/
def errMessage : VerifyError → String
  | VerifyError.malformedJWS => "Malformed JWS"
  | VerifyError.malformedHeader => "Malformed JWS header"
  | VerifyError.failedDecodeHeader => "Failed to decode header"
  | VerifyError.failedAcquireKey e => "Failed to acquire public key: " ++ e
  | VerifyError.malformedSignature => "Malformed JWS signature"
  | VerifyError.refusePlaintext => "Refusing to validate plaintext JWS"
  | VerifyError.expectedSymmetricKey t => "Expected symmetric ([]byte) key. Got " ++ t
  | VerifyError.expectedRsaKey t => "Expected RSA key. Got " ++ t
  | VerifyError.expectedEcdsaKey t => "Expected ECDSA key. Got " ++ t
  | VerifyError.signatureVerificationFailed => "Signature verification failed"
  | VerifyError.algLogicError a => "Alorithm logic error with " ++ a
  | VerifyError.unknownAlgorithm a => "Unknown signature algorithm: " ++ a
  | VerifyError.malformedPayload => "Malformed JWS payload"

/-- Go `KeyProvider` interface: `GetJWSKey(h Header) (crypto.PublicKey,
error)`. -/
abbrev KeyProvider := Header → Except String GoKey

/-- Go `ProviderFromKey`: wrap one fixed key as a provider (the `singleKey`
struct whose `GetJWSKey` returns the key and a nil error for every header). -/
def ProviderFromKey (key : GoKey) : KeyProvider := fun _ => Except.ok key

/-- Algorithm dispatch of `VerifyAndDecode` (the `switch header.Alg` at lines
122-210 of `jws.go`), returning `none` on success and the error otherwise.
Both hash-building sequences mirror the three `io.WriteString` calls of the
source: segment 0, a dot, segment 1.  The ES branch mirrors the source's
inner `if / else if / else panic` by an option whose `none` arm is the panic,
reported as `algLogicError`. -/
def verifySignature (prims : CryptoPrims) (p0 p1 : List Char) (header : Header)
    (key : GoKey) (signature : Bytes) : Option VerifyError :=
  if header.Alg = ALG_NONE then
    if key ≠ NoneKey then some VerifyError.refusePlaintext
    else none
  else if header.Alg = ALG_HS256 then
    match key with
    | GoKey.byteSlice symmetricKey =>
      let hm := (((Hasher.mk []).writeString p0).writeString ['.']).writeString p1
      let expectedSignature := prims.hmacSha256 symmetricKey hm.buf
      if ¬ hmacEqual expectedSignature signature then
        some VerifyError.signatureVerificationFailed
      else none
    | k => some (VerifyError.expectedSymmetricKey (goTypeName k))
  else if header.Alg = ALG_RS256 then
    match rsaPubOf key with
    | none => some (VerifyError.expectedRsaKey (goTypeName key))
    | some pubKey =>
      let hs := (((Hasher.mk []).writeString p0).writeString ['.']).writeString p1
      if ¬ prims.rsaVerifyPKCS1v15 pubKey (prims.sha256 hs.buf) signature then
        some VerifyError.signatureVerificationFailed
      else none
  else if header.Alg = ALG_ES256 ∨ header.Alg = ALG_ES512 then
    match ecdsaPubOf key with
    | none => some (VerifyError.expectedEcdsaKey (goTypeName key))
    | some pubKey =>
      match
        (if header.Alg = ALG_ES256 then some (32, 32, prims.sha256)
         else if header.Alg = ALG_ES512 then some (66, 66, prims.sha512)
         else none) with
      | none => some (VerifyError.algLogicError header.Alg)
      | some (rSize, sSize, hashFn) =>
        if signature.length ≠ rSize + sSize then
          some VerifyError.signatureVerificationFailed
        else
          let r := bigIntSetBytes (signature.take rSize)
          let s := bigIntSetBytes (signature.drop rSize)
          let hs := (((Hasher.mk []).writeString p0).writeString ['.']).writeString p1
          if ¬ prims.ecdsaVerify pubKey (hashFn hs.buf) r s then
            some VerifyError.signatureVerificationFailed
          else none
  else
    some (VerifyError.unknownAlgorithm header.Alg)

/-- Go `VerifyAndDecode(jws string, kp KeyProvider) ([]byte, error)`, step by
step as in the source: split on dots and require three parts; decode and
unmarshal the header; call the key provider; decode the signature segment;
dispatch on the algorithm; on success decode and return the payload segment.
The pair mirrors Go's two return values: every failure site returns
`(none, some e)` and the single success site returns `(some payload, none)`. -/
def VerifyAndDecode (prims : CryptoPrims) (jws : List Char) (kp : KeyProvider) :
    Option Bytes × Option VerifyError :=
  match splitOnDot jws with
  | [p0, p1, p2] =>
    match safeDecode p0 with
    | none => (none, some VerifyError.malformedHeader)
    | some data =>
      match goUnmarshalHeader data with
      | none => (none, some VerifyError.failedDecodeHeader)
      | some header =>
        match kp header with
        | Except.error e => (none, some (VerifyError.failedAcquireKey e))
        | Except.ok key =>
          match safeDecode p2 with
          | none => (none, some VerifyError.malformedSignature)
          | some signature =>
            match verifySignature prims p0 p1 header key signature with
            | some e => (none, some e)
            | none =>
              match safeDecode p1 with
              | none => (none, some VerifyError.malformedPayload)
              | some payload => (some payload, none)
  | _ => (none, some VerifyError.malformedJWS)

/-- Signing input as the spec words it: the exact byte sequence
`encoded-header . encoded-payload` — the two encoded segments joined by the
dot, not the decoded bytes. -/
def signingInputSpec (p0 p1 : List Char) : List Char := p0 ++ ['.'] ++ p1

/-- Dispatch of the spec-side verifier: identical to `verifySignature` except
that every MACed or hashed message is written as `signingInputSpec p0 p1`
directly rather than accumulated by three stream writes. -/
def verifySignatureSpec (prims : CryptoPrims) (p0 p1 : List Char) (header : Header)
    (key : GoKey) (signature : Bytes) : Option VerifyError :=
  if header.Alg = ALG_NONE then
    if key ≠ NoneKey then some VerifyError.refusePlaintext
    else none
  else if header.Alg = ALG_HS256 then
    match key with
    | GoKey.byteSlice symmetricKey =>
      let expectedSignature := prims.hmacSha256 symmetricKey (signingInputSpec p0 p1)
      if ¬ hmacEqual expectedSignature signature then
        some VerifyError.signatureVerificationFailed
      else none
    | k => some (VerifyError.expectedSymmetricKey (goTypeName k))
  else if header.Alg = ALG_RS256 then
    match rsaPubOf key with
    | none => some (VerifyError.expectedRsaKey (goTypeName key))
    | some pubKey =>
      if ¬ prims.rsaVerifyPKCS1v15 pubKey (prims.sha256 (signingInputSpec p0 p1)) signature then
        some VerifyError.signatureVerificationFailed
      else none
  else if header.Alg = ALG_ES256 ∨ header.Alg = ALG_ES512 then
    match ecdsaPubOf key with
    | none => some (VerifyError.expectedEcdsaKey (goTypeName key))
    | some pubKey =>
      match
        (if header.Alg = ALG_ES256 then some (32, 32, prims.sha256)
         else if header.Alg = ALG_ES512 then some (66, 66, prims.sha512)
         else none) with
      | none => some (VerifyError.algLogicError header.Alg)
      | some (rSize, sSize, hashFn) =>
        if signature.length ≠ rSize + sSize then
          some VerifyError.signatureVerificationFailed
        else
          let r := bigIntSetBytes (signature.take rSize)
          let s := bigIntSetBytes (signature.drop rSize)
          if ¬ prims.ecdsaVerify pubKey (hashFn (signingInputSpec p0 p1)) r s then
            some VerifyError.signatureVerificationFailed
          else none
  else
    some (VerifyError.unknownAlgorithm header.Alg)

/-- Spec-side verifier: the engine with `verifySignatureSpec` as its
dispatch, used to state the signing-input refinement claim. -/
def VerifyAndDecodeSpec (prims : CryptoPrims) (jws : List Char) (kp : KeyProvider) :
    Option Bytes × Option VerifyError :=
  match splitOnDot jws with
  | [p0, p1, p2] =>
    match safeDecode p0 with
    | none => (none, some VerifyError.malformedHeader)
    | some data =>
      match goUnmarshalHeader data with
      | none => (none, some VerifyError.failedDecodeHeader)
      | some header =>
        match kp header with
        | Except.error e => (none, some (VerifyError.failedAcquireKey e))
        | Except.ok key =>
          match safeDecode p2 with
          | none => (none, some VerifyError.malformedSignature)
          | some signature =>
            match verifySignatureSpec prims p0 p1 header key signature with
            | some e => (none, some e)
            | none =>
              match safeDecode p1 with
              | none => (none, some VerifyError.malformedPayload)
              | some payload => (some payload, none)
  | _ => (none, some VerifyError.malformedJWS)

/-- Concrete primitive bundle for witnesses; its values never matter on the
paths the witnesses exercise. -/
def trivialPrims : CryptoPrims where
  hmacSha256 := fun _ _ => []
  sha256 := fun _ => []
  sha512 := fun _ => []
  rsaVerifyPKCS1v15 := fun _ _ _ => false
  ecdsaVerify := fun _ _ _ _ => false

/-- Characters of a string literal, for writing concrete JWS inputs. -/
def gs (s : String) : List Char := s.data

/-- Bytes of an ASCII string literal, for writing concrete header JSON. -/
def strBytes (s : String) : Bytes := s.data.map Char.toNat

/-- Buffer accumulated by the three stream writes of every hashing branch:
segment 0, then a dot, then segment 1. -/
lemma hasher_buf_eq (p0 p1 : List Char) :
    ((((Hasher.mk []).writeString p0).writeString ['.']).writeString p1).buf =
      signingInputSpec p0 p1 := by
  simp [Hasher.writeString, signingInputSpec]

/-- Dispatch-level refinement: the streamed hash input of the source equals
the spec's single concatenation in every algorithm branch. -/
lemma verifySignature_eq_spec (prims : CryptoPrims) (p0 p1 : List Char) (header : Header)
    (key : GoKey) (sig : Bytes) :
    verifySignature prims p0 p1 header key sig =
      verifySignatureSpec prims p0 p1 header key sig := by
  unfold verifySignature verifySignatureSpec
  simp only [Hasher.writeString, signingInputSpec, List.nil_append, List.append_assoc]

/-- Dispatch never reports the internal ES-branch panic: its guard admits only
ES256 and ES512, and the inner size selection covers both. -/
lemma verifySignature_no_panic (prims : CryptoPrims) (p0 p1 : List Char) (header : Header)
    (key : GoKey) (sig : Bytes) (a : Algorithm) :
    verifySignature prims p0 p1 header key sig ≠ some (VerifyError.algLogicError a) := by
  unfold verifySignature
  by_cases h2 : header.Alg = ALG_ES256
  · simp only [h2, ALG_NONE, ALG_HS256, ALG_RS256, ALG_ES256, ALG_ES512]
    repeat' split <;> (try simp_all)
  · by_cases h3 : header.Alg = ALG_ES512
    · simp only [h3, ALG_NONE, ALG_HS256, ALG_RS256, ALG_ES256, ALG_ES512]
      repeat' split <;> (try simp_all)
    · simp only [h2, h3]
      repeat' split <;> (try simp_all)

/-- Dispatch never reports the segment-count error; that error has exactly one
return site, before dispatch. -/
lemma verifySignature_ne_malformedJWS (prims : CryptoPrims) (p0 p1 : List Char)
    (header : Header) (key : GoKey) (sig : Bytes) :
    verifySignature prims p0 p1 header key sig ≠ some VerifyError.malformedJWS := by
  unfold verifySignature
  repeat' split <;> (try simp_all)

/-- Lists of length three are literal triples. -/
lemma len3 {α : Type} {l : List α} (h : l.length = 3) : ∃ a b c, l = [a, b, c] := by
  match l with
  | [a, b, c] => exact ⟨a, b, c, rfl⟩
  | [] => simp at h
  | [a] => simp at h
  | [a, b] => simp at h
  | a :: b :: c :: d :: t => simp at h

/-- C2: for every signing algorithm, the byte sequence MACed or hashed for
signature verification is exactly the encoded header segment, the ASCII dot,
and the encoded payload segment — the engine equals a verifier whose hash
input is written as that single concatenation `signingInputSpec`. -/
theorem c2_signing_input_is_encoded_segments (prims : CryptoPrims) (jws : List Char)
    (kp : KeyProvider) :
    VerifyAndDecode prims jws kp = VerifyAndDecodeSpec prims jws kp := by
  unfold VerifyAndDecode VerifyAndDecodeSpec
  simp only [verifySignature_eq_spec]

/-- C8: whenever `VerifyAndDecode` returns an error, it returns no payload
bytes — every failure path yields a `none` payload component. -/
theorem c8_no_payload_on_error (prims : CryptoPrims) (jws : List Char) (kp : KeyProvider)
    (e : VerifyError) (h : (VerifyAndDecode prims jws kp).2 = some e) :
    (VerifyAndDecode prims jws kp).1 = none := by
  unfold VerifyAndDecode at *
  repeat' split at h <;> (try simp_all)

/-- C8 witness at a one-segment input. -/
theorem c8_witness :
    (VerifyAndDecode trivialPrims (gs "x") (ProviderFromKey NoneKey)).1 = none :=
  c8_no_payload_on_error trivialPrims (gs "x") (ProviderFromKey NoneKey)
    VerifyError.malformedJWS (by decide)

/-- C9: the engine is deterministic and stateless — its result is a function
of the input string and of the provider's input/output behaviour alone, so two
calls with identical input and pointwise-equal providers yield identical
results. -/
theorem c9_deterministic (prims : CryptoPrims) (jws : List Char) (kp1 kp2 : KeyProvider)
    (h : ∀ hd, kp1 hd = kp2 hd) :
    VerifyAndDecode prims jws kp1 = VerifyAndDecode prims jws kp2 := by
  unfold VerifyAndDecode
  simp only [h]

/-- C9 witness: two syntactically different providers with the same behaviour
give the same result on a concrete token. -/
theorem c9_witness :
    VerifyAndDecode trivialPrims (gs "eyJhbGciOiJub25lIn0.AA.AA") (ProviderFromKey NoneKey) =
      VerifyAndDecode trivialPrims (gs "eyJhbGciOiJub25lIn0.AA.AA")
        (fun _ => Except.ok NoneKey) :=
  c9_deterministic trivialPrims (gs "eyJhbGciOiJub25lIn0.AA.AA") (ProviderFromKey NoneKey)
    (fun _ => Except.ok NoneKey) (fun _ => rfl)

/-- C10: the panic inside the ES256/ES512 dispatch branch is unreachable — no
input, provider, or primitive behaviour makes `VerifyAndDecode` report it. -/
theorem c10_panic_unreachable (prims : CryptoPrims) (jws : List Char) (kp : KeyProvider)
    (a : Algorithm) :
    (VerifyAndDecode prims jws kp).2 ≠ some (VerifyError.algLogicError a) := by
  unfold VerifyAndDecode
  repeat' split <;> (try simp_all)
  rename_i e heq
  intro hcc
  subst hcc
  exact verifySignature_no_panic _ _ _ _ _ _ a heq

/-- C10 witness at a concrete ES256 token. -/
theorem c10_witness :
    (VerifyAndDecode trivialPrims (gs "eyJhbGciOiJFUzI1NiJ9.AA.AAAA")
        (ProviderFromKey (GoKey.ecdsaPub ⟨"P-256", 0, 0⟩))).2 ≠
      some (VerifyError.algLogicError "ES256") :=
  c10_panic_unreachable trivialPrims (gs "eyJhbGciOiJFUzI1NiJ9.AA.AAAA")
    (ProviderFromKey (GoKey.ecdsaPub ⟨"P-256", 0, 0⟩)) "ES256"

/-- C3 (amended): the segment-count error is returned exactly when splitting
on the dot yields a number of segments different from three; emptiness of the
segments is not checked. -/
theorem c3_malformed_iff_not_three_segments (prims : CryptoPrims) (jws : List Char)
    (kp : KeyProvider) :
    VerifyAndDecode prims jws kp = (none, some VerifyError.malformedJWS) ↔
      (splitOnDot jws).length ≠ 3 := by
  constructor
  · intro h hlen
    obtain ⟨a, b, c, habc⟩ := len3 hlen
    unfold VerifyAndDecode at h
    rw [habc] at h
    repeat' split at h <;> (try simp_all)
    rename_i e heq
    exact verifySignature_ne_malformedJWS _ _ _ _ _ _ heq
  · intro hlen
    unfold VerifyAndDecode
    split
    · next p0 p1 p2 heq => rw [heq] at hlen; simp at hlen
    · rfl

/-- C3 counterexample: an input whose three segments include empty ones is
not rejected by the split check — it even verifies successfully under the
`none` algorithm, contradicting the claim that such inputs fail with the
segment-count error. -/
theorem c3_counterexample :
    splitOnDot (gs "eyJhbGciOiJub25lIn0..") = [gs "eyJhbGciOiJub25lIn0", [], []] ∧
      VerifyAndDecode trivialPrims (gs "eyJhbGciOiJub25lIn0..") (ProviderFromKey NoneKey) =
        (some [], none) :=
  ⟨by decide, by decide⟩

/-- C3 witness: a one-segment input fails with the segment-count error. -/
theorem c3_witness :
    VerifyAndDecode trivialPrims (gs "x") (ProviderFromKey NoneKey) =
      (none, some VerifyError.malformedJWS) :=
  (c3_malformed_iff_not_three_segments trivialPrims (gs "x")
    (ProviderFromKey NoneKey)).mpr (by decide)

/-- C6: with three segments, an undecodable header segment and a decodable
header segment with unparsable bytes produce two distinct errors, and in both
cases the result does not depend on the provider or on any primitive (both are
universally quantified and absent from the right-hand sides), so no key lookup
and no signature check can influence that call. -/
theorem c6_header_failures_distinct_and_early (prims : CryptoPrims) (jws : List Char)
    (kp : KeyProvider) (p0 p1 p2 : List Char) (hparts : splitOnDot jws = [p0, p1, p2]) :
    (safeDecode p0 = none →
      VerifyAndDecode prims jws kp = (none, some VerifyError.malformedHeader)) ∧
    (∀ data, safeDecode p0 = some data → goUnmarshalHeader data = none →
      VerifyAndDecode prims jws kp = (none, some VerifyError.failedDecodeHeader)) ∧
    VerifyError.malformedHeader ≠ VerifyError.failedDecodeHeader := by
  refine ⟨fun h => ?_, fun data hd hj => ?_, by simp⟩
  · unfold VerifyAndDecode
    rw [hparts]
    simp [h]
  · unfold VerifyAndDecode
    rw [hparts]
    simp [hd, hj]

/-- C6 witness: a header segment outside the base64url alphabet gives the
encoding error; a decodable header segment whose bytes are not a JSON object
gives the format error. -/
theorem c6_witness :
    VerifyAndDecode trivialPrims (gs "!.AA.AA") (ProviderFromKey NoneKey) =
        (none, some VerifyError.malformedHeader) ∧
      VerifyAndDecode trivialPrims (gs "AA.AA.AA") (ProviderFromKey NoneKey) =
        (none, some VerifyError.failedDecodeHeader) :=
  ⟨(c6_header_failures_distinct_and_early trivialPrims (gs "!.AA.AA")
      (ProviderFromKey NoneKey) (gs "!") (gs "AA") (gs "AA") (by decide)).1 (by decide),
   (c6_header_failures_distinct_and_early trivialPrims (gs "AA.AA.AA")
      (ProviderFromKey NoneKey) (gs "AA") (gs "AA") (gs "AA") (by decide)).2.1
     [0] (by decide) (by decide)⟩

/-- C1 (amended): on a three-segment input whose header declares `none` and whose
provider returns a key, success forces the key to be the `NoneKey` sentinel;
and with the sentinel the call succeeds whenever both remaining segments are
valid encoding, regardless of the decoded signature's value. -/
theorem c1_none_requires_sentinel (prims : CryptoPrims) (jws : List Char) (kp : KeyProvider)
    (p0 p1 p2 : List Char) (data : Bytes) (header : Header) (key : GoKey) (sb pl : Bytes)
    (hparts : splitOnDot jws = [p0, p1, p2])
    (hhdr : safeDecode p0 = some data)
    (hjson : goUnmarshalHeader data = some header)
    (halg : header.Alg = ALG_NONE)
    (hkey : kp header = Except.ok key)
    (hsb : safeDecode p2 = some sb)
    (hpl : safeDecode p1 = some pl) :
    ((VerifyAndDecode prims jws kp).2 = none → key = NoneKey) ∧
      (key = NoneKey → VerifyAndDecode prims jws kp = (some pl, none)) := by
  unfold VerifyAndDecode
  rw [hparts]
  simp only [hhdr, hjson, hkey, hsb, hpl]
  constructor
  · by_cases hk : key = NoneKey
    · exact fun _ => hk
    · simp [verifySignature, halg, hk]
  · intro hk
    simp [verifySignature, halg, hk]

/-- C1 counterexample: with the sentinel key, an `alg: none` token whose
signature segment is not valid encoding still fails — the signature segment is
decoded before dispatch — refuting "any payload verifies regardless of the
signature segment's content". -/
theorem c1_counterexample :
    VerifyAndDecode trivialPrims (gs "eyJhbGciOiJub25lIn0.AA.!") (ProviderFromKey NoneKey) =
      (none, some VerifyError.malformedSignature) := by
  decide

/-- C1 witness: with the sentinel, a `none` token with decodable payload and
signature segments verifies. -/
theorem c1_witness :
    VerifyAndDecode trivialPrims (gs "eyJhbGciOiJub25lIn0.AA.AA") (ProviderFromKey NoneKey) =
      (some [0], none) :=
  (c1_none_requires_sentinel trivialPrims (gs "eyJhbGciOiJub25lIn0.AA.AA")
      (ProviderFromKey NoneKey) (gs "eyJhbGciOiJub25lIn0") (gs "AA") (gs "AA")
      (strBytes "\x7b\"alg\":\"none\"\x7d") ⟨"none", "", "", "", "", "", "", "", ""⟩
      NoneKey [0] [0] (by decide) (by decide) (by decide) rfl rfl (by decide)
      (by decide)).2 rfl

/-- C5: on a three-segment input whose header declares ES256 (resp. ES512) and
whose provider returns an ECDSA key (public, or private via its public half),
a decoded signature of length other than 64 (resp. 132) bytes fails with the
signature error; the conclusion holds for every primitive bundle, so no R/S
parsing or curve arithmetic can influence it. -/
theorem c5_ecdsa_signature_length_check (prims : CryptoPrims) (jws : List Char)
    (kp : KeyProvider) (p0 p1 p2 : List Char) (data : Bytes) (header : Header)
    (key : GoKey) (pub : EcdsaPublicKey) (sb : Bytes)
    (hparts : splitOnDot jws = [p0, p1, p2])
    (hhdr : safeDecode p0 = some data)
    (hjson : goUnmarshalHeader data = some header)
    (hkey : kp header = Except.ok key)
    (hpub : ecdsaPubOf key = some pub)
    (hsb : safeDecode p2 = some sb)
    (halg : header.Alg = ALG_ES256 ∧ sb.length ≠ 64 ∨
      header.Alg = ALG_ES512 ∧ sb.length ≠ 132) :
    VerifyAndDecode prims jws kp = (none, some VerifyError.signatureVerificationFailed) := by
  unfold VerifyAndDecode
  rw [hparts]
  simp only [hhdr, hjson, hkey, hsb]
  rcases halg with ⟨ha, hl⟩ | ⟨ha, hl⟩ <;>
    simp [verifySignature, ha, hpub, hl, ALG_NONE, ALG_HS256, ALG_RS256, ALG_ES256, ALG_ES512]

/-- C5 witness: an ES256 token whose signature segment decodes to three bytes
is rejected with the signature error. -/
theorem c5_witness :
    VerifyAndDecode trivialPrims (gs "eyJhbGciOiJFUzI1NiJ9.AA.AAAA")
        (ProviderFromKey (GoKey.ecdsaPub ⟨"P-256", 0, 0⟩)) =
      (none, some VerifyError.signatureVerificationFailed) :=
  c5_ecdsa_signature_length_check trivialPrims (gs "eyJhbGciOiJFUzI1NiJ9.AA.AAAA")
    (ProviderFromKey (GoKey.ecdsaPub ⟨"P-256", 0, 0⟩)) (gs "eyJhbGciOiJFUzI1NiJ9")
    (gs "AA") (gs "AAAA") (strBytes "\x7b\"alg\":\"ES256\"\x7d")
    ⟨"ES256", "", "", "", "", "", "", "", ""⟩ (GoKey.ecdsaPub ⟨"P-256", 0, 0⟩)
    ⟨"P-256", 0, 0⟩ [0, 0, 0] (by decide) (by decide) (by decide) rfl rfl (by decide)
    (Or.inl ⟨rfl, by decide⟩)

/-- C7 (amended): on a three-segment input whose header carries an `alg`
outside the supported enumeration, once the provider has returned a key (of
any value) and the signature segment is valid encoding, the call fails with
the unknown-algorithm error, whose message names the offending value. -/
theorem c7_unknown_algorithm (prims : CryptoPrims) (jws : List Char) (kp : KeyProvider)
    (p0 p1 p2 : List Char) (data : Bytes) (header : Header) (key : GoKey) (sb : Bytes)
    (hparts : splitOnDot jws = [p0, p1, p2])
    (hhdr : safeDecode p0 = some data)
    (hjson : goUnmarshalHeader data = some header)
    (hkey : kp header = Except.ok key)
    (hsb : safeDecode p2 = some sb)
    (h1 : header.Alg ≠ ALG_NONE) (h2 : header.Alg ≠ ALG_HS256)
    (h3 : header.Alg ≠ ALG_RS256) (h4 : header.Alg ≠ ALG_ES256)
    (h5 : header.Alg ≠ ALG_ES512) :
    VerifyAndDecode prims jws kp = (none, some (VerifyError.unknownAlgorithm header.Alg)) ∧
      errMessage (VerifyError.unknownAlgorithm header.Alg) =
        "Unknown signature algorithm: " ++ header.Alg := by
  refine ⟨?_, rfl⟩
  unfold VerifyAndDecode
  rw [hparts]
  simp only [hhdr, hjson, hkey, hsb]
  simp [verifySignature, h1, h2, h3, h4, h5]

/-- C7 counterexample: with `alg: "XYZ999"` but a signature segment outside
the base64url alphabet, the call fails with the signature-encoding error, not
the unknown-algorithm error — the signature segment is decoded before
dispatch, so the unknown-algorithm failure is not unconditional in the
signature segment's content. -/
theorem c7_counterexample :
    VerifyAndDecode trivialPrims (gs "eyJhbGciOiJYWVo5OTkifQ.AA.!")
        (ProviderFromKey (GoKey.byteSlice [])) =
      (none, some VerifyError.malformedSignature) ∧
    VerifyError.malformedSignature ≠ VerifyError.unknownAlgorithm "XYZ999" :=
  ⟨by decide, by decide⟩

/-- C7 witness: `alg: "XYZ999"` with a provider-supplied key and a decodable
signature segment fails with the unknown-algorithm error naming `XYZ999`. -/
theorem c7_witness :
    VerifyAndDecode trivialPrims (gs "eyJhbGciOiJYWVo5OTkifQ.AA.AA")
        (ProviderFromKey (GoKey.byteSlice [])) =
      (none, some (VerifyError.unknownAlgorithm "XYZ999")) ∧
    errMessage (VerifyError.unknownAlgorithm "XYZ999") =
      "Unknown signature algorithm: XYZ999" :=
  c7_unknown_algorithm trivialPrims (gs "eyJhbGciOiJYWVo5OTkifQ.AA.AA")
    (ProviderFromKey (GoKey.byteSlice [])) (gs "eyJhbGciOiJYWVo5OTkifQ") (gs "AA") (gs "AA")
    (strBytes "\x7b\"alg\":\"XYZ999\"\x7d") ⟨"XYZ999", "", "", "", "", "", "", "", ""⟩
    (GoKey.byteSlice []) [0] (by decide) (by decide) (by decide) rfl (by decide)
    (by decide) (by decide) (by decide) (by decide) (by decide)

/-- Header produced by the engine for the C4 failing input: the wire fields
`typ`, `cty` and `jwk` are lost (both `Typ` and `Cty` are tagged `typ`, so the
key `typ` matches neither, and `Jwk` is tagged `jkw`, so the key `jwk` matches
nothing), while `jku` and `kid` are carried. -/
def hdrC4 : Header := ⟨"none", "", "", "JK", "", "", "", "", "ID"⟩

/-- Provider for the C4 behaviour theorem: it authorizes `none` only when it
is handed exactly `hdrC4`, the header with the dropped fields. -/
def kpC4 : KeyProvider := fun hd => if hd = hdrC4 then Except.ok NoneKey else Except.error "no key"

/-- C4 (code behaviour at the failing input): unmarshalling a header that sets
all of `typ`, `cty`, `jwk`, `jku`, `kid` yields a `Header` in which `Typ`,
`Cty` and `Jwk` are empty while `Jku` and `Kid` carry their values, and the
full engine run succeeds with a provider that accepts exactly that
dropped-field header — so that is the header handed to the Key Provider,
contradicting the claim that each wire name maps to its own field. -/
theorem c4_header_fields_dropped :
    goUnmarshalHeader (strBytes
        "\x7b\"alg\":\"none\",\"typ\":\"JWT\",\"cty\":\"CT\",\"jwk\":\"KK\",\"jku\":\"JK\",\"kid\":\"ID\"\x7d") =
      some hdrC4 ∧
    hdrC4.Typ = "" ∧ hdrC4.Cty = "" ∧ hdrC4.Jwk = "" ∧ hdrC4.Jku = "JK" ∧ hdrC4.Kid = "ID" ∧
    VerifyAndDecode trivialPrims
        (gs "eyJhbGciOiJub25lIiwidHlwIjoiSldUIiwiY3R5IjoiQ1QiLCJqd2siOiJLSyIsImprdSI6IkpLIiwia2lkIjoiSUQifQ.AA.AA")
        kpC4 =
      (some [0], none) :=
  ⟨by decide, rfl, rfl, rfl, rfl, rfl, by decide⟩
